import Mathlib

/-
Shallow embedding of the NPI registry research pipeline
(src/npi_api_client.py and src/ny_healthcare_research.py).

Python values manipulated by the pipeline (parsed JSON bodies, dict
literals, lists) are modelled by the inductive type `Py`.  Python dicts
are association lists with string keys in insertion order, as every dict
built by this program has string keys.  Fallible Python operations
(attribute access on a non-dict, subscripting a missing key, indexing an
empty list, ordering comparisons on non-numbers) are modelled in
`Except String`, the error string naming the Python exception that the
source operation raises.  Iteration over non-list values is modelled
precisely where the iterated elements would immediately raise anyway
(strings and dicts yield strings, which have no `get` attribute); string
indexing by an integer is modelled, string indexing by a string raises
TypeError as in Python.
-/

/-- A Python/JSON-style runtime value. -/
inductive Py where
  | none : Py
  | bool : Bool → Py
  | int : Int → Py
  | str : String → Py
  | list : List Py → Py
  | dict : List (String × Py) → Py

/-- First-match lookup in an association list with string keys, the
semantics of reading a Python dict whose keys are strings (dicts built by
this program never hold a duplicated key). -/
def pylookup {α : Type} : List (String × α) → String → Option α
  | [], _ => Option.none
  | (k, v) :: rest, key => if k = key then some v else pylookup rest key

/-- Python truthiness of a value (bool(x)). -/
def Py.truthy : Py → Bool
  | .none => false
  | .bool b => b
  | .int n => n != 0
  | .str s => !s.isEmpty
  | .list es => !es.isEmpty
  | .dict kvs => !kvs.isEmpty

/-- Python x.get(k, d): defined on dicts, AttributeError on anything else.
If the key maps to an explicit value (even None) that value is returned;
the default is used only when the key is absent. -/
def Py.dictGet (x : Py) (k : String) (d : Py) : Except String Py :=
  match x with
  | .dict kvs => .ok ((pylookup kvs k).getD d)
  | _ => .error "AttributeError: object has no attribute get"

/-- Python x[k] for a string key k: dict subscript (KeyError when the key
is absent), TypeError on any other value. -/
def Py.subscript (x : Py) (k : String) : Except String Py :=
  match x with
  | .dict kvs =>
    match pylookup kvs k with
    | some v => .ok v
    | Option.none => .error "KeyError"
  | _ => .error "TypeError: value is not subscriptable by a string"

/-- Python x[i] for a non-negative integer index: list indexing
(IndexError past the end), single-character string indexing, TypeError on
any other value. -/
def Py.index (x : Py) (i : Nat) : Except String Py :=
  match x with
  | .list es =>
    match es.get? i with
    | some v => .ok v
    | Option.none => .error "IndexError: list index out of range"
  | .str s =>
    match s.toList.get? i with
    | some c => .ok (.str (String.mk [c]))
    | Option.none => .error "IndexError: string index out of range"
  | _ => .error "TypeError: value is not subscriptable by an integer"

/-- Python x.keys() materialised as a list: defined on dicts (insertion
order), AttributeError on anything else. -/
def Py.dictKeys : Py → Except String (List String)
  | .dict kvs => .ok (kvs.map Prod.fst)
  | _ => .error "AttributeError: object has no attribute keys"

/- ---------------------------------------------------------------------
Registry query client (src/npi_api_client.py).
--------------------------------------------------------------------- -/

/-- Outcome of the single outbound HTTP GET made by search_providers:
a parsed JSON body on a 2xx response, or the RequestException raised by
raise_for_status (non-success status) or by the transport (network
failure), carrying the str(e) description. -/
inductive HttpOutcome where
  | success (body : Py) : HttpOutcome
  | httpError (msg : String) : HttpOutcome
  | netError (msg : String) : HttpOutcome

/-- Python dict assignment d[k] = v on an insertion-ordered dict: replace
the value in place when the key is present, append otherwise. -/
def setKeyS (d : List (String × Py)) (k : String) (v : Py) : List (String × Py) :=
  match d with
  | [] => [(k, v)]
  | (k0, v0) :: rest =>
    if k0 = k then (k0, v) :: rest else (k0, v0) :: setKeyS rest k v

/-- Python base.update(kw): assign every pair of kw into base, in order. -/
def dictUpdate (base kw : List (String × Py)) : List (String × Py) :=
  kw.foldl (fun acc kv => setKeyS acc kv.1 kv.2) base

/-- Lines 42-43 of npi_api_client.py: params = {'version': '2.1'} then
params.update(kwargs). -/
def buildParams (kwargs : List (String × Py)) : List (String × Py) :=
  dictUpdate [("version", .str "2.1")] kwargs

/-- Lines 22-51 of npi_api_client.py: search_providers.  The transport
argument abstracts session.get + raise_for_status + response.json(); the
except clause catches requests.exceptions.RequestException, which covers
both the connection failure and the HTTPError from raise_for_status, and
returns the dict literal with key "error" and value str(e). -/
def search_providers (transport : List (String × Py) → HttpOutcome)
    (kwargs : List (String × Py)) : Py :=
  let params := buildParams kwargs
  match transport params with
  | .success body => body
  | .httpError msg => .dict [("error", .str msg)]
  | .netError msg => .dict [("error", .str msg)]

/-- The condition at lines 72, 98, 116 and 45:
'result_count' in results and results['result_count'] > 0,
with Python semantics: membership on a dict tests key presence, on a list
tests element equality against the string (then the string subscript
raises TypeError), on a string tests substring (likewise); membership on
None / bool / int raises TypeError; the comparison > 0 is defined on int
and bool (False < True numerically) and raises TypeError otherwise. -/
def checkCount (results : Py) : Except String Bool :=
  match results with
  | .dict kvs =>
    match pylookup kvs "result_count" with
    | Option.none => .ok false
    | some (.int n) => .ok (decide (0 < n))
    | some (.bool b) => .ok b
    | some _ => .error "TypeError: unorderable types"
  | .list es =>
    if es.any (fun e => match e with | .str s => decide (s = "result_count") | _ => false)
    then .error "TypeError: list indices must be integers"
    else .ok false
  | .str s =>
    if (s.splitOn "result_count").length > 1
    then .error "TypeError: string indices must be integers"
    else .ok false
  | _ => .error "TypeError: argument is not iterable"

/-- Lines 64-68 of npi_api_client.py: the search_params dict literal of
search_ny_healthcare_organizations, with the limit clamped to 1200. -/
def orgSearchParams (lim : Int) : List (String × Py) :=
  [("city", .str "New York"), ("enumeration_type", .str "NPI-2"),
   ("limit", .int (min lim 1200))]

/-- Lines 53-76 of npi_api_client.py: search_ny_healthcare_organizations. -/
def search_ny_healthcare_organizations
    (transport : List (String × Py) → HttpOutcome) (lim : Int) :
    Except String Py := do
  let results := search_providers transport (orgSearchParams lim)
  let cond ← checkCount results
  if cond then
    results.dictGet "results" (.list [])
  else
    pure (.list [])

/-- Lines 90-94 of npi_api_client.py: the search_params dict literal of
search_by_specialty. -/
def specialtySearchParams (specialty st : String) (lim : Int) :
    List (String × Py) :=
  [("taxonomy_description", .str specialty), ("state", .str st),
   ("limit", .int (min lim 1200))]

/-- Lines 78-102 of npi_api_client.py: search_by_specialty. -/
def search_by_specialty (transport : List (String × Py) → HttpOutcome)
    (specialty st : String) (lim : Int) : Except String Py := do
  let results := search_providers transport (specialtySearchParams specialty st lim)
  let cond ← checkCount results
  if cond then
    results.dictGet "results" (.list [])
  else
    pure (.list [])

/-- Lines 104-119 of npi_api_client.py: get_provider_details.  The then
branch uses plain subscripts results['results'][0], not .get. -/
def get_provider_details (transport : List (String × Py) → HttpOutcome)
    (npi_number : String) : Except String Py := do
  let results := search_providers transport [("number", .str npi_number)]
  let cond ← checkCount results
  if cond then do
    let rs ← results.subscript "results"
    rs.index 0
  else
    pure (.dict [("error", .str "Provider not found")])

/- ---------------------------------------------------------------------
Research aggregator (src/ny_healthcare_research.py).
--------------------------------------------------------------------- -/

/-- Line 49's generator, element by element:
any(addr.get('state') == 'NY' for addr in addresses) over a list, with
Python's short-circuit (later elements are not touched once one matches).
addr.get('state') with no default yields None when absent; None == 'NY'
is False, as is any non-string == 'NY'. -/
def anyStateNy : List Py → Except String Bool
  | [] => .ok false
  | a :: rest => do
    let s ← a.dictGet "state" Py.none
    if (match s with | .str t => decide (t = "NY") | _ => false) then .ok true
    else anyStateNy rest

/-- Line 49 applied to the value bound to addresses: iterating a list
runs the generator; iterating a string or a dict yields strings, so the
first element's .get raises AttributeError (an empty one yields nothing
and any() is False); iterating None / bool / int raises TypeError. -/
def isNyOrgOf (addresses : Py) : Except String Bool :=
  match addresses with
  | .list addrs => anyStateNy addrs
  | .str s => if s.isEmpty then .ok false else .error "AttributeError: str has no attribute get"
  | .dict kvs => if kvs.isEmpty then .ok false else .error "AttributeError: str has no attribute get"
  | _ => .error "TypeError: argument is not iterable"

/-- Lines 48-49 of ny_healthcare_research.py: the jurisdiction filter,
addresses = result.get('addresses', []) followed by the any(...) check.
The identical two lines appear at 145-146 in search_specific_companies. -/
def filterNy (result : Py) : Except String Bool := do
  let addresses ← result.dictGet "addresses" (.list [])
  isNyOrgOf addresses

/-- The Python expression result.get('basic', {}).get(k, ''), appearing
three times in the org_data literal (organization_name,
enumeration_date, status) and once in company_data. -/
def basicGet (result : Py) (k : String) : Except String Py := do
  let b ← result.dictGet "basic" (.dict [])
  b.dictGet k (.str "")

/-- The Python expression addresses[0].get(k, '') if addresses else '',
appearing four times per record literal (city, state, postal_code,
telephone_number). -/
def firstItemGet (addresses : Py) (k : String) : Except String Py :=
  if addresses.truthy then do
    let a0 ← addresses.index 0
    a0.dictGet k (.str "")
  else pure (.str "")

/-- The Python expression
result.get('taxonomies', [{}])[0].get('desc', '') if
result.get('taxonomies') else '' — the condition evaluates
result.get('taxonomies') with default None, and only when that value is
truthy is the key re-read (now with default [{}]) and element 0 taken. -/
def taxonomyGet (result : Py) : Except String Py := do
  let tcheck ← result.dictGet "taxonomies" Py.none
  if tcheck.truthy then do
    let ts ← result.dictGet "taxonomies" (.list [.dict []])
    let t0 ← ts.index 0
    t0.dictGet "desc" (.str "")
  else pure (.str "")

/-- Lines 52-64 of ny_healthcare_research.py: the org_data dict literal,
with its values evaluated left to right and addresses bound at line 48. -/
def buildOrgData (category term : String) (result addresses : Py) :
    Except String Py := do
  let npi ← result.dictGet "number" (.str "")
  let orgName ← basicGet result "organization_name"
  let city ← firstItemGet addresses "city"
  let st ← firstItemGet addresses "state"
  let zip ← firstItemGet addresses "postal_code"
  let phone ← firstItemGet addresses "telephone_number"
  let taxo ← taxonomyGet result
  let enumDate ← basicGet result "enumeration_date"
  let statusV ← basicGet result "status"
  pure (.dict [("category", .str category), ("search_term", .str term),
    ("npi_number", npi), ("organization_name", orgName), ("city", city),
    ("state", st), ("zip_code", zip), ("phone", phone), ("taxonomy", taxo),
    ("enumeration_date", enumDate), ("status", statusV)])

/-- Lines 48-66 of ny_healthcare_research.py: the body of the inner loop
of research_ny_healthcare_companies for one raw entry — bind addresses,
test the jurisdiction filter, and when it passes build and keep the flat
org_data record (some record); otherwise keep nothing (none). -/
def processEntry (category term : String) (result : Py) :
    Except String (Option Py) := do
  let addresses ← result.dictGet "addresses" (.list [])
  let isNy ← isNyOrgOf addresses
  if isNy then do
    let od ← buildOrgData category term result addresses
    pure (some od)
  else
    pure Option.none

/-- Lines 149-157 of ny_healthcare_research.py: the company_data dict
literal of search_specific_companies, values evaluated left to right. -/
def buildCompanyData (result addresses : Py) : Except String Py := do
  let companyName ← basicGet result "organization_name"
  let npi ← result.dictGet "number" (.str "")
  let city ← firstItemGet addresses "city"
  let st ← firstItemGet addresses "state"
  let zip ← firstItemGet addresses "postal_code"
  let phone ← firstItemGet addresses "telephone_number"
  let taxo ← taxonomyGet result
  pure (.dict [("company_name", companyName), ("npi_number", npi),
    ("city", city), ("state", st), ("zip_code", zip), ("phone", phone),
    ("taxonomy", taxo)])

/-- Lines 145-158 of ny_healthcare_research.py: the body of the inner
loop of search_specific_companies for one raw entry. -/
def processCompanyEntry (result : Py) : Except String (Option Py) := do
  let addresses ← result.dictGet "addresses" (.list [])
  let isNy ← isNyOrgOf addresses
  if isNy then do
    let cd ← buildCompanyData result addresses
    pure (some cd)
  else
    pure Option.none

/- ---------------------------------------------------------------------
Summary reporter (src/ny_healthcare_research.py, lines 73-99).
--------------------------------------------------------------------- -/

/-- Lines 74-76: json.dump(all_results, f, indent=2) serialises exactly
the aggregate list; the value written is the JSON array of the records,
unconditionally (an empty aggregate writes an empty array). -/
def jsonOutput (all_results : List Py) : Py := .list all_results

/-- Lines 80-87: the CSV step.  When the aggregate is empty the guard
if all_results: skips the whole block and no file is produced (none);
otherwise the header is all_results[0].keys() in insertion order and one
row is written per record (some (header, rows)). -/
def csvOutput (all_results : List Py) :
    Except String (Option (List String × List Py)) :=
  match all_results with
  | [] => .ok Option.none
  | r :: rest => do
    let keys ← r.dictKeys
    pure (some (keys, r :: rest))

/-- Whether a Python value may be a dict key (hashable): every modelled
value except lists and dicts. -/
def Py.isHashable : Py → Bool
  | .list _ => false
  | .dict _ => false
  | _ => true

/-- The numeric identity Python applies to dict keys: True and 1 (and
False and 0) are the same key. -/
def Py.toIntKey : Py → Option Int
  | .bool b => some (if b then 1 else 0)
  | .int n => some n
  | _ => Option.none

/-- Python == between hashable key values: numeric values compare by
value across bool/int, None and strings only to themselves; distinct
kinds are unequal. -/
def Py.keyEq (a b : Py) : Bool :=
  match a.toIntKey, b.toIntKey with
  | some m, some n => decide (m = n)
  | _, _ =>
    match a, b with
    | .none, .none => true
    | .str s, .str t => decide (s = t)
    | _, _ => false

/-- Python counts.get(key, 0) on a dict with arbitrary hashable keys. -/
def lookupKey : List (Py × Nat) → Py → Option Nat
  | [], _ => Option.none
  | (k, v) :: rest, key => if Py.keyEq k key then some v else lookupKey rest key

/-- Python counts[key] = v: replace in place keeping the originally
inserted key object, append when absent. -/
def setKeyP (d : List (Py × Nat)) (key : Py) (v : Nat) : List (Py × Nat) :=
  match d with
  | [] => [(key, v)]
  | (k, w) :: rest =>
    if Py.keyEq k key then (k, v) :: rest else (k, w) :: setKeyP rest key v

/-- Lines 93-96 of ny_healthcare_research.py: the body of the
category_counts loop — for each record, category = result['category']
(a subscript, so KeyError if absent; assigning an unhashable key raises
TypeError), then category_counts[category] =
category_counts.get(category, 0) + 1, threading the accumulator through
the remaining records. -/
def categoryCountsLoop (counts : List (Py × Nat)) :
    List Py → Except String (List (Py × Nat))
  | [] => .ok counts
  | r :: rest => do
    let c ← r.subscript "category"
    if c.isHashable then
      categoryCountsLoop (setKeyP counts c ((lookupKey counts c).getD 0 + 1)) rest
    else
      .error "TypeError: unhashable type"

/-- Lines 93-96 of ny_healthcare_research.py: category_counts = {} then
the loop over all_results. -/
def categoryCounts (all_results : List Py) : Except String (List (Py × Nat)) :=
  categoryCountsLoop [] all_results

/-- The category value stored in a flat record. -/
def categoryOfRec (r : Py) : Option Py :=
  match r with
  | .dict kvs => pylookup kvs "category"
  | _ => Option.none

/-- A record the counting loop accepts: it is a dict carrying a
hashable category value. -/
def wellKeyed (r : Py) : Bool :=
  match categoryOfRec r with
  | some c => c.isHashable
  | Option.none => false

/-- The number of aggregate records whose category field equals the
given label (Python value equality on keys). -/
def countInCategory (rs : List Py) (cat : Py) : Nat :=
  rs.countP (fun r => match categoryOfRec r with
    | some c => Py.keyEq c cat
    | Option.none => false)

/-- Ten flat records split 6/4 across two category labels. -/
def exampleSplitRecords : List Py :=
  List.replicate 6 (Py.dict [("category", Py.str "CategoryA")]) ++
    List.replicate 4 (Py.dict [("category", Py.str "CategoryB")])

/- ---------------------------------------------------------------------
Shape of a raw provider entry, and closed-form accessors used to state
the properties.  wfEntry captures the registry schema insofar as the
claims quantify over entries: a JSON object whose basic key, when
present, holds an object; whose addresses key, when present, holds an
array of objects; and whose taxonomies key, when present, holds an array
of objects or an explicit null.
--------------------------------------------------------------------- -/

/-- Whether a value is a dict. -/
def Py.isDictB : Py → Bool
  | .dict _ => true
  | _ => false

/-- The basic key, when present, holds an object. -/
def basicOk (kvs : List (String × Py)) : Bool :=
  match pylookup kvs "basic" with
  | Option.none => true
  | some (.dict _) => true
  | some _ => false

/-- The addresses key, when present, holds an array of objects. -/
def addressesOk (kvs : List (String × Py)) : Bool :=
  match pylookup kvs "addresses" with
  | Option.none => true
  | some (.list as) => as.all Py.isDictB
  | some _ => false

/-- The taxonomies key, when present, holds an array of objects or an
explicit null. -/
def taxonomiesOk (kvs : List (String × Py)) : Bool :=
  match pylookup kvs "taxonomies" with
  | Option.none => true
  | some Py.none => true
  | some (.list ts) => ts.all Py.isDictB
  | some _ => false

/-- Well-formed raw provider entry: a dict whose basic / addresses /
taxonomies keys, where present, have the registry's shapes. -/
def wfEntry (result : Py) : Bool :=
  match result with
  | .dict kvs => basicOk kvs && addressesOk kvs && taxonomiesOk kvs
  | _ => false

/-- The addresses sequence of an entry ([] when absent). -/
def addressesOf (result : Py) : List Py :=
  match result with
  | .dict kvs =>
    match pylookup kvs "addresses" with
    | some (.list as) => as
    | _ => []
  | _ => []

/-- Whether one address record carries state "NY". -/
def hasNyAddr (a : Py) : Bool :=
  match a with
  | .dict akvs =>
    match pylookup akvs "state" with
    | some (.str s) => decide (s = "NY")
    | _ => false
  | _ => false

/-- The entry's top-level number datum with the empty-string default. -/
def numberField (result : Py) : Py :=
  match result with
  | .dict kvs => (pylookup kvs "number").getD (.str "")
  | _ => .str ""

/-- A sub-field of the basic sub-record with the empty-string default. -/
def basicField (result : Py) (k : String) : Py :=
  match result with
  | .dict kvs =>
    match pylookup kvs "basic" with
    | some (.dict bkvs) => (pylookup bkvs k).getD (.str "")
    | _ => .str ""
  | _ => .str ""

/-- A sub-field of the first address with the empty-string default ("",
too, when the addresses sequence is absent or empty). -/
def addrField (result : Py) (k : String) : Py :=
  match addressesOf result with
  | [] => .str ""
  | a :: _ =>
    match a with
    | .dict akvs => (pylookup akvs k).getD (.str "")
    | _ => .str ""

/-- The taxonomies sequence of an entry ([] when absent or null). -/
def taxonomiesOf (result : Py) : List Py :=
  match result with
  | .dict kvs =>
    match pylookup kvs "taxonomies" with
    | some (.list ts) => ts
    | _ => []
  | _ => []

/-- The desc of the first taxonomy with the empty-string default. -/
def taxoField (result : Py) : Py :=
  match taxonomiesOf result with
  | [] => .str ""
  | t :: _ =>
    match t with
    | .dict tkvs => (pylookup tkvs "desc").getD (.str "")
    | _ => .str ""

/-- Closed form of the org_data record of lines 52-64, stated through
the accessors above; proved equal to what buildOrgData produces on every
well-formed entry. -/
def flatRecordOf (category term : String) (result : Py) : Py :=
  .dict [("category", .str category), ("search_term", .str term),
    ("npi_number", numberField result),
    ("organization_name", basicField result "organization_name"),
    ("city", addrField result "city"), ("state", addrField result "state"),
    ("zip_code", addrField result "postal_code"),
    ("phone", addrField result "telephone_number"),
    ("taxonomy", taxoField result),
    ("enumeration_date", basicField result "enumeration_date"),
    ("status", basicField result "status")]

/-- Closed form of the company_data record of lines 149-157. -/
def flatCompanyRecordOf (result : Py) : Py :=
  .dict [("company_name", basicField result "organization_name"),
    ("npi_number", numberField result),
    ("city", addrField result "city"), ("state", addrField result "state"),
    ("zip_code", addrField result "postal_code"),
    ("phone", addrField result "telephone_number"),
    ("taxonomy", taxoField result)]

/-- Lines 48 and 52-64 composed without the jurisdiction filter: bind
addresses = result.get('addresses', []) and build the flat record.  This
is the normalization step in isolation. -/
def normalizeEntry (category term : String) (result : Py) : Except String Py := do
  let addresses ← result.dictGet "addresses" (.list [])
  buildOrgData category term result addresses

/-- The entry's number datum as stored (absent means the key is
missing). -/
def numberDatum (result : Py) : Option Py :=
  match result with
  | .dict kvs => pylookup kvs "number"
  | _ => Option.none

/-- A datum inside the basic sub-record (absent when the entry, the
basic key or the sub-key is missing or mis-shaped). -/
def basicDatum (result : Py) (k : String) : Option Py :=
  match result with
  | .dict kvs =>
    match pylookup kvs "basic" with
    | some (.dict bkvs) => pylookup bkvs k
    | _ => Option.none
  | _ => Option.none

/-- A datum inside the first address (absent when the addresses sequence
is absent or empty, or the sub-key is missing). -/
def firstAddrDatum (result : Py) (k : String) : Option Py :=
  match addressesOf result with
  | [] => Option.none
  | a :: _ =>
    match a with
    | .dict akvs => pylookup akvs k
    | _ => Option.none

/-- The desc datum of the first taxonomy entry. -/
def taxoDatum (result : Py) : Option Py :=
  match taxonomiesOf result with
  | [] => Option.none
  | t :: _ =>
    match t with
    | .dict tkvs => pylookup tkvs "desc"
    | _ => Option.none

/-- The value stored under a key of a flat record. -/
def fieldOf (od : Py) (k : String) : Option Py :=
  match od with
  | .dict kvs => pylookup kvs k
  | _ => Option.none

/-- The value stored under the error key of a response. -/
def errorOf (r : Py) : Option Py :=
  match r with
  | .dict kvs => pylookup kvs "error"
  | _ => Option.none

/-- A response whose result_count field equals 0, or an errored response
(a dict that lacks result_count and carries the error sentinel). -/
def zeroOrErrored (r : Py) : Bool :=
  match r with
  | .dict kvs =>
    match pylookup kvs "result_count" with
    | some (.int n) => decide (n = 0)
    | Option.none => (pylookup kvs "error").isSome
    | some _ => false
  | _ => false

/-- A sample raw entry whose second address (not the first) is in NY. -/
def sampleEntryNY : Py :=
  .dict [("number", .str "123"),
    ("basic", .dict [("organization_name", .str "City Hospital")]),
    ("addresses", .list [.dict [("state", .str "CA"), ("city", .str "Albany")],
      .dict [("state", .str "NY")]]),
    ("taxonomies", .list [.dict [("desc", .str "General")]])]

/- ---------------------------------------------------------------------
Helper lemmas: on well-formed entries each sub-expression of the record
literals evaluates, without raising, to its closed-form accessor.
--------------------------------------------------------------------- -/

theorem number_get_eq (kvs : List (String × Py)) :
    (Py.dict kvs).dictGet "number" (.str "") = .ok (numberField (.dict kvs)) := by
  simp [Py.dictGet, numberField]

theorem basicOk_shape (kvs : List (String × Py)) (hb : basicOk kvs = true) :
    pylookup kvs "basic" = Option.none ∨
      ∃ bkvs, pylookup kvs "basic" = some (.dict bkvs) := by
  unfold basicOk at hb
  rcases e : pylookup kvs "basic" with _ | bv
  · exact Or.inl rfl
  · rw [e] at hb
    cases bv with
    | dict bkvs => exact Or.inr ⟨bkvs, rfl⟩
    | none => exact Bool.noConfusion hb
    | bool b => exact Bool.noConfusion hb
    | int n => exact Bool.noConfusion hb
    | str s => exact Bool.noConfusion hb
    | list l => exact Bool.noConfusion hb

theorem addressesOk_shape (kvs : List (String × Py))
    (hA : addressesOk kvs = true) :
    pylookup kvs "addresses" = Option.none ∨
      ∃ as, pylookup kvs "addresses" = some (.list as) ∧
        as.all Py.isDictB = true := by
  unfold addressesOk at hA
  rcases e : pylookup kvs "addresses" with _ | av
  · exact Or.inl rfl
  · rw [e] at hA
    cases av with
    | list as => exact Or.inr ⟨as, rfl, hA⟩
    | none => exact Bool.noConfusion hA
    | bool b => exact Bool.noConfusion hA
    | int n => exact Bool.noConfusion hA
    | str s => exact Bool.noConfusion hA
    | dict d => exact Bool.noConfusion hA

theorem taxonomiesOk_shape (kvs : List (String × Py))
    (ht : taxonomiesOk kvs = true) :
    pylookup kvs "taxonomies" = Option.none ∨
      pylookup kvs "taxonomies" = some Py.none ∨
      ∃ ts, pylookup kvs "taxonomies" = some (.list ts) ∧
        ts.all Py.isDictB = true := by
  unfold taxonomiesOk at ht
  rcases e : pylookup kvs "taxonomies" with _ | tv
  · exact Or.inl rfl
  · rw [e] at ht
    cases tv with
    | none => exact Or.inr (Or.inl rfl)
    | list ts => exact Or.inr (Or.inr ⟨ts, rfl, ht⟩)
    | bool b => exact Bool.noConfusion ht
    | int n => exact Bool.noConfusion ht
    | str s => exact Bool.noConfusion ht
    | dict d => exact Bool.noConfusion ht

theorem isDictB_shape (a : Py) (h : Py.isDictB a = true) :
    ∃ akvs, a = .dict akvs := by
  cases a with
  | dict akvs => exact ⟨akvs, rfl⟩
  | none => exact Bool.noConfusion h
  | bool b => exact Bool.noConfusion h
  | int n => exact Bool.noConfusion h
  | str s => exact Bool.noConfusion h
  | list l => exact Bool.noConfusion h

theorem basicGet_wf (kvs : List (String × Py)) (hb : basicOk kvs = true)
    (k : String) : basicGet (.dict kvs) k = .ok (basicField (.dict kvs) k) := by
  rcases basicOk_shape kvs hb with e | ⟨bkvs, e⟩ <;>
    simp [basicGet, Py.dictGet, e, basicField, pylookup, Bind.bind, Except.bind]

theorem firstItemGet_wf (kvs : List (String × Py)) (hA : addressesOk kvs = true)
    (k : String) :
    firstItemGet ((pylookup kvs "addresses").getD (.list [])) k
      = .ok (addrField (.dict kvs) k) := by
  rcases addressesOk_shape kvs hA with e | ⟨as, e, hall⟩
  · simp [e, firstItemGet, Py.truthy, addrField, addressesOf, pure, Except.pure]
  · cases as with
    | nil => simp [e, firstItemGet, Py.truthy, addrField, addressesOf, pure,
        Except.pure]
    | cons a rest =>
      simp only [List.all_cons, Bool.and_eq_true] at hall
      obtain ⟨akvs, rfl⟩ := isDictB_shape a hall.1
      simp [e, firstItemGet, Py.truthy, Py.index, addrField, addressesOf,
        Py.dictGet, Bind.bind, Except.bind]

theorem taxonomyGet_wf (kvs : List (String × Py))
    (htx : taxonomiesOk kvs = true) :
    taxonomyGet (.dict kvs) = .ok (taxoField (.dict kvs)) := by
  rcases taxonomiesOk_shape kvs htx with e | e | ⟨ts, e, hall⟩
  · simp [taxonomyGet, Py.dictGet, e, Py.truthy, taxoField, taxonomiesOf,
      Bind.bind, Except.bind, pure, Except.pure]
  · simp [taxonomyGet, Py.dictGet, e, Py.truthy, taxoField, taxonomiesOf,
      Bind.bind, Except.bind, pure, Except.pure]
  · cases ts with
    | nil => simp [taxonomyGet, Py.dictGet, e, Py.truthy, taxoField,
        taxonomiesOf, Bind.bind, Except.bind, pure, Except.pure]
    | cons t rest =>
      simp only [List.all_cons, Bool.and_eq_true] at hall
      obtain ⟨tkvs, rfl⟩ := isDictB_shape t hall.1
      simp [taxonomyGet, Py.dictGet, e, Py.truthy, Py.index, taxoField,
        taxonomiesOf, Bind.bind, Except.bind, pure, Except.pure]

theorem buildOrgData_wf (category term : String) (kvs : List (String × Py))
    (h : wfEntry (.dict kvs) = true) :
    buildOrgData category term (.dict kvs)
        ((pylookup kvs "addresses").getD (.list []))
      = .ok (flatRecordOf category term (.dict kvs)) := by
  unfold wfEntry at h
  rw [Bool.and_eq_true, Bool.and_eq_true] at h
  obtain ⟨⟨hb, hA⟩, htx⟩ := h
  simp [buildOrgData, number_get_eq, basicGet_wf _ hb, firstItemGet_wf _ hA,
    taxonomyGet_wf _ htx, flatRecordOf, Bind.bind, Except.bind, pure,
    Except.pure]

theorem buildCompanyData_wf (kvs : List (String × Py))
    (h : wfEntry (.dict kvs) = true) :
    buildCompanyData (.dict kvs) ((pylookup kvs "addresses").getD (.list []))
      = .ok (flatCompanyRecordOf (.dict kvs)) := by
  unfold wfEntry at h
  rw [Bool.and_eq_true, Bool.and_eq_true] at h
  obtain ⟨⟨hb, hA⟩, htx⟩ := h
  simp [buildCompanyData, number_get_eq, basicGet_wf _ hb, firstItemGet_wf _ hA,
    taxonomyGet_wf _ htx, flatCompanyRecordOf, Bind.bind, Except.bind, pure,
    Except.pure]

theorem anyStateNy_eq (as : List Py) (h : as.all Py.isDictB = true) :
    anyStateNy as = .ok (as.any hasNyAddr) := by
  induction as with
  | nil => rfl
  | cons a rest ih =>
    rw [List.all_cons, Bool.and_eq_true] at h
    obtain ⟨akvs, rfl⟩ := isDictB_shape a h.1
    have ih' := ih h.2
    rcases e : pylookup akvs "state" with _ | sv
    · simp [anyStateNy, Py.dictGet, e, hasNyAddr, ih', Bind.bind, Except.bind]
    · cases sv with
      | str t =>
        by_cases ht : t = "NY" <;>
          simp [anyStateNy, Py.dictGet, e, hasNyAddr, ih', ht, Bind.bind,
            Except.bind]
      | none => simp [anyStateNy, Py.dictGet, e, hasNyAddr, ih', Bind.bind,
          Except.bind]
      | bool b => simp [anyStateNy, Py.dictGet, e, hasNyAddr, ih', Bind.bind,
          Except.bind]
      | int n => simp [anyStateNy, Py.dictGet, e, hasNyAddr, ih', Bind.bind,
          Except.bind]
      | list l => simp [anyStateNy, Py.dictGet, e, hasNyAddr, ih', Bind.bind,
          Except.bind]
      | dict d => simp [anyStateNy, Py.dictGet, e, hasNyAddr, ih', Bind.bind,
          Except.bind]

theorem filterNy_wf (kvs : List (String × Py)) (h : wfEntry (.dict kvs) = true) :
    filterNy (.dict kvs) = .ok ((addressesOf (.dict kvs)).any hasNyAddr) := by
  unfold wfEntry at h
  rw [Bool.and_eq_true, Bool.and_eq_true] at h
  obtain ⟨⟨hb, hA⟩, htx⟩ := h
  rcases addressesOk_shape kvs hA with e | ⟨as, e, hall⟩
  · simp [filterNy, Py.dictGet, e, isNyOrgOf, anyStateNy, addressesOf,
      Bind.bind, Except.bind]
  · simp [filterNy, Py.dictGet, e, isNyOrgOf, anyStateNy_eq as hall,
      addressesOf, Bind.bind, Except.bind]

theorem processEntry_wf (category term : String) (kvs : List (String × Py))
    (h : wfEntry (.dict kvs) = true) :
    processEntry category term (.dict kvs)
      = .ok (if (addressesOf (.dict kvs)).any hasNyAddr
             then some (flatRecordOf category term (.dict kvs))
             else Option.none) := by
  have hbuild := buildOrgData_wf category term kvs h
  unfold wfEntry at h
  rw [Bool.and_eq_true, Bool.and_eq_true] at h
  obtain ⟨⟨hb, hA⟩, htx⟩ := h
  rcases addressesOk_shape kvs hA with e | ⟨as, e, hall⟩
  · simp [processEntry, Py.dictGet, e, isNyOrgOf, anyStateNy, addressesOf,
      Bind.bind, Except.bind, pure, Except.pure]
  · rw [e] at hbuild
    simp only [Option.getD_some] at hbuild
    by_cases hny : as.any hasNyAddr = true
    · simp [processEntry, Py.dictGet, e, isNyOrgOf, anyStateNy_eq as hall,
        hny, addressesOf, hbuild, Bind.bind, Except.bind, pure, Except.pure]
    · rw [Bool.not_eq_true] at hny
      simp [processEntry, Py.dictGet, e, isNyOrgOf, anyStateNy_eq as hall,
        hny, addressesOf, Bind.bind, Except.bind, pure, Except.pure]

theorem processCompanyEntry_wf (kvs : List (String × Py))
    (h : wfEntry (.dict kvs) = true) :
    processCompanyEntry (.dict kvs)
      = .ok (if (addressesOf (.dict kvs)).any hasNyAddr
             then some (flatCompanyRecordOf (.dict kvs))
             else Option.none) := by
  have hbuild := buildCompanyData_wf kvs h
  unfold wfEntry at h
  rw [Bool.and_eq_true, Bool.and_eq_true] at h
  obtain ⟨⟨hb, hA⟩, htx⟩ := h
  rcases addressesOk_shape kvs hA with e | ⟨as, e, hall⟩
  · simp [processCompanyEntry, Py.dictGet, e, isNyOrgOf, anyStateNy,
      addressesOf, Bind.bind, Except.bind, pure, Except.pure]
  · rw [e] at hbuild
    simp only [Option.getD_some] at hbuild
    by_cases hny : as.any hasNyAddr = true
    · simp [processCompanyEntry, Py.dictGet, e, isNyOrgOf,
        anyStateNy_eq as hall, hny, addressesOf, hbuild, Bind.bind,
        Except.bind, pure, Except.pure]
    · rw [Bool.not_eq_true] at hny
      simp [processCompanyEntry, Py.dictGet, e, isNyOrgOf,
        anyStateNy_eq as hall, hny, addressesOf, Bind.bind, Except.bind,
        pure, Except.pure]

theorem wfEntry_dict_shape (result : Py) (h : wfEntry result = true) :
    ∃ kvs, result = Py.dict kvs := by
  cases result with
  | dict kvs => exact ⟨kvs, rfl⟩
  | none => exact Bool.noConfusion h
  | bool b => exact Bool.noConfusion h
  | int n => exact Bool.noConfusion h
  | str s => exact Bool.noConfusion h
  | list l => exact Bool.noConfusion h

theorem normalizeEntry_wf (category term : String) (result : Py)
    (h : wfEntry result = true) :
    normalizeEntry category term result
      = .ok (flatRecordOf category term result) := by
  obtain ⟨kvs, rfl⟩ := wfEntry_dict_shape result h
  simp [normalizeEntry, Py.dictGet, Bind.bind, Except.bind,
    buildOrgData_wf category term kvs h]

theorem numberField_absent (result : Py) (h : numberDatum result = Option.none) :
    numberField result = .str "" := by
  cases result <;> simp_all [numberDatum, numberField]

theorem basicField_absent (result : Py) (k : String)
    (h : basicDatum result k = Option.none) : basicField result k = .str "" := by
  cases result with
  | dict kvs =>
    rcases e : pylookup kvs "basic" with _ | bv
    · simp [basicField, e]
    · cases bv <;> simp_all [basicField, basicDatum, e]
  | none => simp [basicField]
  | bool b => simp [basicField]
  | int n => simp [basicField]
  | str s => simp [basicField]
  | list l => simp [basicField]

theorem addrField_absent (result : Py) (k : String)
    (h : firstAddrDatum result k = Option.none) : addrField result k = .str "" := by
  unfold firstAddrDatum at h
  unfold addrField
  rcases e : addressesOf result with _ | ⟨a, rest⟩
  · simp
  · rw [e] at h
    cases a <;> simp_all

theorem taxoField_absent (result : Py) (h : taxoDatum result = Option.none) :
    taxoField result = .str "" := by
  unfold taxoDatum at h
  unfold taxoField
  rcases e : taxonomiesOf result with _ | ⟨t, rest⟩
  · simp
  · rw [e] at h
    cases t <;> simp_all

theorem addresses_shape_of_any (kvs : List (String × Py))
    (h : wfEntry (.dict kvs) = true)
    (hany : (addressesOf (.dict kvs)).any hasNyAddr = true) :
    ∃ akvs rest, addressesOf (.dict kvs) = .dict akvs :: rest := by
  have h' := h
  unfold wfEntry at h'
  rw [Bool.and_eq_true, Bool.and_eq_true] at h'
  obtain ⟨⟨hb, hA⟩, htx⟩ := h'
  rcases addressesOk_shape kvs hA with e | ⟨as, e, hall⟩
  · simp [addressesOf, e] at hany
  · have he : addressesOf (.dict kvs) = as := by simp [addressesOf, e]
    rw [he] at hany ⊢
    cases as with
    | nil => exact Bool.noConfusion hany
    | cons a rest =>
      rw [List.all_cons, Bool.and_eq_true] at hall
      obtain ⟨akvs, rfl⟩ := isDictB_shape a hall.1
      exact ⟨akvs, rest, rfl⟩

/-- C1: for every well-formed raw provider entry, the jurisdiction
filter of the aggregator evaluates without raising to the existence
check "some element of the addresses sequence has state NY" taken over
the whole sequence; an entry whose addresses sequence is absent or empty
gives false and is excluded (kept as nothing) by both the
category-keyword loop and the named-entity loop, and an entry with some
NY address is kept and normalized by both. -/
theorem C1_jurisdiction_filter (category term : String) (result : Py)
    (h : wfEntry result = true) :
    filterNy result = .ok ((addressesOf result).any hasNyAddr) ∧
    ((addressesOf result).any hasNyAddr = false →
      processEntry category term result = .ok Option.none ∧
      processCompanyEntry result = .ok Option.none) ∧
    ((addressesOf result).any hasNyAddr = true →
      processEntry category term result
          = .ok (some (flatRecordOf category term result)) ∧
      processCompanyEntry result = .ok (some (flatCompanyRecordOf result))) := by
  obtain ⟨kvs, rfl⟩ := wfEntry_dict_shape result h
  refine ⟨filterNy_wf kvs h, ?_, ?_⟩
  · intro hfalse
    constructor <;>
      simp [processEntry_wf category term kvs h, processCompanyEntry_wf kvs h,
        hfalse]
  · intro htrue
    constructor <;>
      simp [processEntry_wf category term kvs h, processCompanyEntry_wf kvs h,
        htrue]

/-- Witness for C1: a concrete entry whose first address is in CA and
whose second is in NY is kept by both loops. -/
theorem C1_jurisdiction_filter_witness :
    wfEntry sampleEntryNY = true ∧
    (filterNy sampleEntryNY = .ok ((addressesOf sampleEntryNY).any hasNyAddr) ∧
    ((addressesOf sampleEntryNY).any hasNyAddr = false →
      processEntry "Hospitals" "Hospital" sampleEntryNY = .ok Option.none ∧
      processCompanyEntry sampleEntryNY = .ok Option.none) ∧
    ((addressesOf sampleEntryNY).any hasNyAddr = true →
      processEntry "Hospitals" "Hospital" sampleEntryNY
          = .ok (some (flatRecordOf "Hospitals" "Hospital" sampleEntryNY)) ∧
      processCompanyEntry sampleEntryNY
          = .ok (some (flatCompanyRecordOf sampleEntryNY)))) :=
  ⟨by decide, C1_jurisdiction_filter "Hospitals" "Hospital" sampleEntryNY
    (by decide)⟩

/-- C2: on every well-formed raw provider entry — whatever combination
of number, basic, addresses, taxonomies or their sub-keys is missing —
normalization evaluates without raising to the flat record whose keys
are exactly the eleven output fields, and each field whose source datum
is absent holds the empty string. -/
theorem C2_normalization_total (category term k : String) (result : Py)
    (h : wfEntry result = true) :
    normalizeEntry category term result
        = .ok (flatRecordOf category term result) ∧
    (flatRecordOf category term result).dictKeys
        = .ok ["category", "search_term", "npi_number", "organization_name",
               "city", "state", "zip_code", "phone", "taxonomy",
               "enumeration_date", "status"] ∧
    fieldOf (flatRecordOf category term result) "npi_number"
        = some (numberField result) ∧
    fieldOf (flatRecordOf category term result) "organization_name"
        = some (basicField result "organization_name") ∧
    fieldOf (flatRecordOf category term result) "taxonomy"
        = some (taxoField result) ∧
    (numberDatum result = Option.none → numberField result = .str "") ∧
    (basicDatum result k = Option.none → basicField result k = .str "") ∧
    (firstAddrDatum result k = Option.none → addrField result k = .str "") ∧
    (taxoDatum result = Option.none → taxoField result = .str "") :=
  ⟨normalizeEntry_wf category term result h, rfl, rfl, rfl, rfl,
    numberField_absent result, basicField_absent result k,
    addrField_absent result k, taxoField_absent result⟩

/-- Witness for C2 at the entry with every key missing: normalization
returns the record with all data fields empty. -/
theorem C2_normalization_total_witness :
    wfEntry (Py.dict []) = true ∧
    (normalizeEntry "H" "h" (Py.dict [])
        = .ok (flatRecordOf "H" "h" (Py.dict [])) ∧
    (flatRecordOf "H" "h" (Py.dict [])).dictKeys
        = .ok ["category", "search_term", "npi_number", "organization_name",
               "city", "state", "zip_code", "phone", "taxonomy",
               "enumeration_date", "status"] ∧
    fieldOf (flatRecordOf "H" "h" (Py.dict [])) "npi_number"
        = some (numberField (Py.dict [])) ∧
    fieldOf (flatRecordOf "H" "h" (Py.dict [])) "organization_name"
        = some (basicField (Py.dict []) "organization_name") ∧
    fieldOf (flatRecordOf "H" "h" (Py.dict [])) "taxonomy"
        = some (taxoField (Py.dict [])) ∧
    (numberDatum (Py.dict []) = Option.none →
      numberField (Py.dict []) = .str "") ∧
    (basicDatum (Py.dict []) "x" = Option.none →
      basicField (Py.dict []) "x" = .str "") ∧
    (firstAddrDatum (Py.dict []) "x" = Option.none →
      addrField (Py.dict []) "x" = .str "") ∧
    (taxoDatum (Py.dict []) = Option.none → taxoField (Py.dict []) = .str "")) :=
  ⟨by decide, C2_normalization_total "H" "h" "x" (Py.dict []) (by decide)⟩

/-- C9: normalization is deterministic — two evaluations of the
normalizer on the same raw entry with the same category and keyword
provenance yield the same result value, byte for byte (the embedded
normalizer is a pure function of its arguments, with no other inputs). -/
theorem C9_normalization_deterministic (category term : String) (result : Py)
    (r1 r2 : Except String Py)
    (h1 : normalizeEntry category term result = r1)
    (h2 : normalizeEntry category term result = r2) : r1 = r2 :=
  h1.symm.trans h2

/-- Witness for C9: one evaluation pinned to its concrete value equals
a second evaluation of the same input. -/
theorem C9_normalization_deterministic_witness :
    normalizeEntry "H" "h" (Py.dict [])
      = .ok (Py.dict [("category", .str "H"), ("search_term", .str "h"),
          ("npi_number", .str ""), ("organization_name", .str ""),
          ("city", .str ""), ("state", .str ""), ("zip_code", .str ""),
          ("phone", .str ""), ("taxonomy", .str ""),
          ("enumeration_date", .str ""), ("status", .str "")]) :=
  C9_normalization_deterministic "H" "h" (Py.dict []) _ _ rfl rfl

/-- C10: every entry the jurisdiction filter keeps has a non-empty
addresses sequence, whose first element is an address object, and the
city / state / zip_code / phone fields of the kept record are that first
address's data (with the per-key empty-string default) — the
else-branch fallback for these fields is never the one taken for a kept
entry.  The same holds for the named-entity loop's company records. -/
theorem C10_first_address_fields (category term : String) (result od cd : Py)
    (h : wfEntry result = true) :
    (processEntry category term result = .ok (some od) →
      ∃ akvs rest, addressesOf result = .dict akvs :: rest ∧
        fieldOf od "city" = some ((pylookup akvs "city").getD (.str "")) ∧
        fieldOf od "state" = some ((pylookup akvs "state").getD (.str "")) ∧
        fieldOf od "zip_code"
          = some ((pylookup akvs "postal_code").getD (.str "")) ∧
        fieldOf od "phone"
          = some ((pylookup akvs "telephone_number").getD (.str ""))) ∧
    (processCompanyEntry result = .ok (some cd) →
      ∃ akvs rest, addressesOf result = .dict akvs :: rest ∧
        fieldOf cd "city" = some ((pylookup akvs "city").getD (.str "")) ∧
        fieldOf cd "state" = some ((pylookup akvs "state").getD (.str "")) ∧
        fieldOf cd "zip_code"
          = some ((pylookup akvs "postal_code").getD (.str "")) ∧
        fieldOf cd "phone"
          = some ((pylookup akvs "telephone_number").getD (.str ""))) := by
  obtain ⟨kvs, rfl⟩ := wfEntry_dict_shape result h
  constructor
  · intro hp
    rw [processEntry_wf category term kvs h] at hp
    by_cases hny : (addressesOf (.dict kvs)).any hasNyAddr = true
    · rw [hny] at hp
      simp only [if_true, Except.ok.injEq, Option.some.injEq] at hp
      obtain ⟨akvs, rest, he⟩ := addresses_shape_of_any kvs h hny
      refine ⟨akvs, rest, he, ?_, ?_, ?_, ?_⟩ <;>
        simp [← hp, flatRecordOf, fieldOf, pylookup, addrField, he]
    · rw [Bool.not_eq_true] at hny
      rw [hny] at hp
      simp at hp
  · intro hp
    rw [processCompanyEntry_wf kvs h] at hp
    by_cases hny : (addressesOf (.dict kvs)).any hasNyAddr = true
    · rw [hny] at hp
      simp only [if_true, Except.ok.injEq, Option.some.injEq] at hp
      obtain ⟨akvs, rest, he⟩ := addresses_shape_of_any kvs h hny
      refine ⟨akvs, rest, he, ?_, ?_, ?_, ?_⟩ <;>
        simp [← hp, flatCompanyRecordOf, fieldOf, pylookup, addrField, he]
    · rw [Bool.not_eq_true] at hny
      rw [hny] at hp
      simp at hp

/-- Witness for C10: the kept sample entry's record carries the first
(CA) address's city and state even though the NY address is second. -/
theorem C10_first_address_fields_witness :
    wfEntry sampleEntryNY = true ∧
    ((processEntry "Hospitals" "Hospital" sampleEntryNY
        = .ok (some (flatRecordOf "Hospitals" "Hospital" sampleEntryNY)) →
      ∃ akvs rest, addressesOf sampleEntryNY = .dict akvs :: rest ∧
        fieldOf (flatRecordOf "Hospitals" "Hospital" sampleEntryNY) "city"
          = some ((pylookup akvs "city").getD (.str "")) ∧
        fieldOf (flatRecordOf "Hospitals" "Hospital" sampleEntryNY) "state"
          = some ((pylookup akvs "state").getD (.str "")) ∧
        fieldOf (flatRecordOf "Hospitals" "Hospital" sampleEntryNY) "zip_code"
          = some ((pylookup akvs "postal_code").getD (.str "")) ∧
        fieldOf (flatRecordOf "Hospitals" "Hospital" sampleEntryNY) "phone"
          = some ((pylookup akvs "telephone_number").getD (.str ""))) ∧
    (processCompanyEntry sampleEntryNY
        = .ok (some (flatCompanyRecordOf sampleEntryNY)) →
      ∃ akvs rest, addressesOf sampleEntryNY = .dict akvs :: rest ∧
        fieldOf (flatCompanyRecordOf sampleEntryNY) "city"
          = some ((pylookup akvs "city").getD (.str "")) ∧
        fieldOf (flatCompanyRecordOf sampleEntryNY) "state"
          = some ((pylookup akvs "state").getD (.str "")) ∧
        fieldOf (flatCompanyRecordOf sampleEntryNY) "zip_code"
          = some ((pylookup akvs "postal_code").getD (.str "")) ∧
        fieldOf (flatCompanyRecordOf sampleEntryNY) "phone"
          = some ((pylookup akvs "telephone_number").getD (.str "")))) :=
  ⟨by decide, C10_first_address_fields "Hospitals" "Hospital" sampleEntryNY
    (flatRecordOf "Hospitals" "Hospital" sampleEntryNY)
    (flatCompanyRecordOf sampleEntryNY) (by decide)⟩

/-- C3: search_providers never propagates a transport failure to its
caller: whenever the outbound request raises (network failure, or
raise_for_status on a non-success HTTP status), the function returns the
dict carrying the "error" key with the failure's description. -/
theorem C3_transport_error_sentinel
    (transport : List (String × Py) → HttpOutcome)
    (kwargs : List (String × Py)) (msg : String)
    (h : transport (buildParams kwargs) = .netError msg ∨
         transport (buildParams kwargs) = .httpError msg) :
    search_providers transport kwargs = .dict [("error", .str msg)] ∧
    errorOf (search_providers transport kwargs) = some (.str msg) := by
  rcases h with h | h <;>
    exact ⟨by simp [search_providers, h],
      by simp [search_providers, h, errorOf, pylookup]⟩

/-- Witness for C3 at a concrete failing transport. -/
theorem C3_transport_error_sentinel_witness :
    ((fun _ : List (String × Py) => HttpOutcome.netError "Connection refused")
        (buildParams [("city", Py.str "New York")])
        = .netError "Connection refused" ∨
      (fun _ : List (String × Py) => HttpOutcome.netError "Connection refused")
        (buildParams [("city", Py.str "New York")])
        = .httpError "Connection refused") ∧
    (search_providers
        (fun _ => HttpOutcome.netError "Connection refused")
        [("city", Py.str "New York")]
        = .dict [("error", .str "Connection refused")] ∧
      errorOf (search_providers
        (fun _ => HttpOutcome.netError "Connection refused")
        [("city", Py.str "New York")]) = some (.str "Connection refused")) :=
  ⟨Or.inl rfl, C3_transport_error_sentinel
    (fun _ => HttpOutcome.netError "Connection refused")
    [("city", Py.str "New York")] "Connection refused" (Or.inl rfl)⟩

theorem pylookup_setKeyS_self (d : List (String × Py)) (k : String) (v : Py) :
    pylookup (setKeyS d k v) k = some v := by
  induction d with
  | nil => simp [setKeyS, pylookup]
  | cons kv rest ih =>
    obtain ⟨k0, v0⟩ := kv
    by_cases e : k0 = k
    · simp [setKeyS, pylookup, e]
    · simp [setKeyS, pylookup, e, ih]

theorem pylookup_setKeyS_other (d : List (String × Py)) (k k' : String)
    (hne : k' ≠ k) (v : Py) :
    pylookup (setKeyS d k v) k' = pylookup d k' := by
  induction d with
  | nil => simp [setKeyS, pylookup, hne.symm]
  | cons kv rest ih =>
    obtain ⟨k0, v0⟩ := kv
    by_cases e : k0 = k
    · subst e
      simp [setKeyS, pylookup, hne.symm]
    · by_cases e' : k0 = k' <;> simp [setKeyS, pylookup, e, e', ih, hne]

theorem dictUpdate_cons (base : List (String × Py)) (kv : String × Py)
    (rest : List (String × Py)) :
    dictUpdate base (kv :: rest) = dictUpdate (setKeyS base kv.1 kv.2) rest :=
  rfl

theorem pylookup_dictUpdate_not_mem (kw : List (String × Py)) (k : String)
    (h : ∀ kv ∈ kw, kv.1 ≠ k) :
    ∀ base, pylookup (dictUpdate base kw) k = pylookup base k := by
  induction kw with
  | nil => intro base; rfl
  | cons kv rest ih =>
    intro base
    rw [dictUpdate_cons,
      ih (fun kv' h' => h kv' (List.mem_cons_of_mem _ h'))]
    exact pylookup_setKeyS_other base kv.1 k
      (Ne.symm (h kv (List.mem_cons_self _ _))) kv.2

theorem pylookup_dictUpdate_mem (kw : List (String × Py)) (k : String)
    (v : Py) :
    ∀ base, (kw.map Prod.fst).Nodup → (k, v) ∈ kw →
      pylookup (dictUpdate base kw) k = some v := by
  induction kw with
  | nil =>
    intro base _ hmem
    cases hmem
  | cons kv rest ih =>
    intro base hnodup hmem
    rw [List.map_cons, List.nodup_cons] at hnodup
    rw [dictUpdate_cons]
    rcases List.mem_cons.mp hmem with heq | hmem'
    · subst heq
      rw [pylookup_dictUpdate_not_mem rest k ?hrest (setKeyS base k v)]
      · exact pylookup_setKeyS_self base k v
      case hrest =>
        intro kv' h' heq'
        have hmm : kv'.1 ∈ rest.map Prod.fst := List.mem_map_of_mem Prod.fst h'
        rw [heq'] at hmm
        exact hnodup.1 hmm
    · exact ih (setKeyS base kv.1 kv.2) hnodup.2 hmem'

/-- C4: the outbound parameter set of search_providers always carries
the version key — bound to "2.1" whenever the caller did not supply a
version of their own — and every caller-supplied pair survives verbatim,
the caller's value winning on a key collision (dict.update semantics;
the keys of a Python keyword-argument dict are pairwise distinct). -/
theorem C4_version_param (kwargs : List (String × Py))
    (hnodup : (kwargs.map Prod.fst).Nodup) :
    (pylookup (buildParams kwargs) "version").isSome = true ∧
    ((∀ kv ∈ kwargs, kv.1 ≠ "version") →
      pylookup (buildParams kwargs) "version" = some (.str "2.1")) ∧
    (∀ k v, (k, v) ∈ kwargs → pylookup (buildParams kwargs) k = some v) := by
  have hdef : (∀ kv ∈ kwargs, kv.1 ≠ "version") →
      pylookup (buildParams kwargs) "version" = some (.str "2.1") := by
    intro hno
    unfold buildParams
    rw [pylookup_dictUpdate_not_mem kwargs "version" hno]
    rfl
  have hmem : ∀ k v, (k, v) ∈ kwargs →
      pylookup (buildParams kwargs) k = some v :=
    fun k v hm => pylookup_dictUpdate_mem kwargs k v _ hnodup hm
  refine ⟨?_, hdef, hmem⟩
  by_cases hv : ∀ kv ∈ kwargs, kv.1 ≠ "version"
  · rw [hdef hv]
    rfl
  · push_neg at hv
    obtain ⟨kv, hkv, heq⟩ := hv
    have hkv2 : kv = ("version", kv.2) := by
      rw [← heq]
    rw [hmem "version" kv.2 (hkv2 ▸ hkv)]
    rfl

/-- Witness for C4 at a concrete caller parameter set. -/
theorem C4_version_param_witness :
    ([("organization_name", Py.str "Hospital"), ("limit", Py.int 1)].map
        Prod.fst).Nodup ∧
    ((pylookup (buildParams [("organization_name", Py.str "Hospital"),
        ("limit", Py.int 1)]) "version").isSome = true ∧
    ((∀ kv ∈ [("organization_name", Py.str "Hospital"),
        ("limit", Py.int 1)], kv.1 ≠ "version") →
      pylookup (buildParams [("organization_name", Py.str "Hospital"),
        ("limit", Py.int 1)]) "version" = some (.str "2.1")) ∧
    (∀ k v, (k, v) ∈ [("organization_name", Py.str "Hospital"),
        ("limit", Py.int 1)] →
      pylookup (buildParams [("organization_name", Py.str "Hospital"),
        ("limit", Py.int 1)]) k = some v)) :=
  ⟨by decide, C4_version_param
    [("organization_name", Py.str "Hospital"), ("limit", Py.int 1)]
    (by decide)⟩

theorem checkCount_zeroOrErrored (r : Py) (h : zeroOrErrored r = true) :
    checkCount r = .ok false := by
  cases r with
  | dict kvs =>
    have h' : (match pylookup kvs "result_count" with
        | some (Py.int n) => decide (n = 0)
        | Option.none => (pylookup kvs "error").isSome
        | some _ => false) = true := h
    rcases e : pylookup kvs "result_count" with _ | v
    · simp [checkCount, e]
    · rw [e] at h'
      cases v with
      | int n =>
        have hn : n = 0 := by simpa using h'
        simp [checkCount, e, hn]
      | none => exact Bool.noConfusion h'
      | bool b => exact Bool.noConfusion h'
      | str s => exact Bool.noConfusion h'
      | list l => exact Bool.noConfusion h'
      | dict d => exact Bool.noConfusion h'
  | none => exact Bool.noConfusion h
  | bool b => exact Bool.noConfusion h
  | int n => exact Bool.noConfusion h
  | str s => exact Bool.noConfusion h
  | list l => exact Bool.noConfusion h

/-- C5: when the response to the fixed city-organization query, or to
the specialty query, has result_count 0 or is the error sentinel, the
derived convenience operation returns the empty list without raising. -/
theorem C5_empty_on_zero_or_error
    (transport : List (String × Py) → HttpOutcome) (lim : Int)
    (specialty st : String) :
    (zeroOrErrored (search_providers transport (orgSearchParams lim)) = true →
      search_ny_healthcare_organizations transport lim = .ok (.list [])) ∧
    (zeroOrErrored (search_providers transport
        (specialtySearchParams specialty st lim)) = true →
      search_by_specialty transport specialty st lim = .ok (.list [])) := by
  constructor
  · intro h
    have hc := checkCount_zeroOrErrored _ h
    simp [search_ny_healthcare_organizations, hc, Bind.bind, Except.bind,
      pure, Except.pure]
  · intro h
    have hc := checkCount_zeroOrErrored _ h
    simp [search_by_specialty, hc, Bind.bind, Except.bind, pure, Except.pure]

/-- Witness for C5 at a failing transport: both derived operations
return the empty list. -/
theorem C5_empty_on_zero_or_error_witness :
    (zeroOrErrored (search_providers
        (fun _ => HttpOutcome.netError "boom") (orgSearchParams 100)) = true ∧
     zeroOrErrored (search_providers (fun _ => HttpOutcome.netError "boom")
        (specialtySearchParams "Hospital" "NY" 100)) = true) ∧
    (search_ny_healthcare_organizations (fun _ => HttpOutcome.netError "boom")
        100 = .ok (.list []) ∧
     search_by_specialty (fun _ => HttpOutcome.netError "boom")
        "Hospital" "NY" 100 = .ok (.list [])) :=
  ⟨⟨by decide, by decide⟩,
    (C5_empty_on_zero_or_error (fun _ => HttpOutcome.netError "boom") 100
      "Hospital" "NY").1 (by decide),
    (C5_empty_on_zero_or_error (fun _ => HttpOutcome.netError "boom") 100
      "Hospital" "NY").2 (by decide)⟩

/-- C8: single-identifier lookup returns the first element of the
results sequence whenever the response carries a positive result_count
and a non-empty results array, and returns the "Provider not found"
error dict whenever the response has count zero or is the error
sentinel. -/
theorem C8_provider_details
    (transport : List (String × Py) → HttpOutcome) (npi_number : String)
    (kvs : List (String × Py)) (x : Py) (xs : List Py) (n : Int)
    (hr : search_providers transport [("number", .str npi_number)]
        = .dict kvs) :
    (pylookup kvs "result_count" = some (.int n) → 0 < n →
      pylookup kvs "results" = some (.list (x :: xs)) →
      get_provider_details transport npi_number = .ok x) ∧
    (zeroOrErrored (.dict kvs) = true →
      get_provider_details transport npi_number
        = .ok (.dict [("error", .str "Provider not found")])) := by
  constructor
  · intro hcount hpos hres
    simp [get_provider_details, hr, checkCount, hcount, hpos, Py.subscript,
      hres, Py.index, Bind.bind, Except.bind, pure, Except.pure]
  · intro h
    have hc := checkCount_zeroOrErrored _ h
    simp [get_provider_details, hr, hc, Bind.bind, Except.bind, pure,
      Except.pure]

/-- Witness for C8 at a transport returning one result. -/
theorem C8_provider_details_witness :
    search_providers (fun _ => HttpOutcome.success (.dict
        [("result_count", .int 1), ("results", .list [.str "first"])]))
        [("number", .str "1234567890")]
      = .dict [("result_count", .int 1), ("results", .list [.str "first"])] ∧
    ((pylookup [("result_count", Py.int 1),
          ("results", Py.list [.str "first"])] "result_count"
        = some (.int 1) → 0 < (1 : Int) →
      pylookup [("result_count", Py.int 1),
          ("results", Py.list [.str "first"])] "results"
        = some (.list (Py.str "first" :: [])) →
      get_provider_details (fun _ => HttpOutcome.success (.dict
          [("result_count", .int 1), ("results", .list [.str "first"])]))
          "1234567890" = .ok (.str "first")) ∧
    (zeroOrErrored (.dict [("result_count", Py.int 1),
        ("results", Py.list [.str "first"])]) = true →
      get_provider_details (fun _ => HttpOutcome.success (.dict
          [("result_count", .int 1), ("results", .list [.str "first"])]))
          "1234567890"
        = .ok (.dict [("error", .str "Provider not found")]))) :=
  ⟨rfl, C8_provider_details
    (fun _ => HttpOutcome.success (.dict [("result_count", .int 1),
      ("results", .list [.str "first"])])) "1234567890"
    [("result_count", .int 1), ("results", .list [.str "first"])]
    (.str "first") [] 1 rfl⟩

/-- C7: with an empty aggregate the CSV step writes nothing at all — not
even a header-only file — while the JSON step still serialises exactly
the empty array; with a non-empty aggregate the CSV header row is the
first record's field names in insertion order. -/
theorem C7_report_outputs :
    csvOutput [] = .ok Option.none ∧
    jsonOutput [] = .list [] ∧
    ∀ (kvs : List (String × Py)) (rest : List Py),
      csvOutput (.dict kvs :: rest)
        = .ok (some (kvs.map Prod.fst, .dict kvs :: rest)) := by
  refine ⟨rfl, rfl, fun kvs rest => ?_⟩
  simp [csvOutput, Py.dictKeys, Bind.bind, Except.bind, pure, Except.pure]

theorem keyEq_symm (a b : Py) (h : Py.keyEq a b = true) :
    Py.keyEq b a = true := by
  cases a <;> cases b <;> simp_all [Py.keyEq, Py.toIntKey]

theorem keyEq_trans (a b c : Py) (h1 : Py.keyEq a b = true)
    (h2 : Py.keyEq b c = true) : Py.keyEq a c = true := by
  cases a <;> cases b <;> cases c <;> simp_all [Py.keyEq, Py.toIntKey]

theorem lookupKey_congr (counts : List (Py × Nat)) (c cat : Py)
    (h : Py.keyEq c cat = true) :
    lookupKey counts c = lookupKey counts cat := by
  induction counts with
  | nil => rfl
  | cons kv rest ih =>
    obtain ⟨k, w⟩ := kv
    have hkk : Py.keyEq k c = Py.keyEq k cat := by
      cases e1 : Py.keyEq k c <;> cases e2 : Py.keyEq k cat
      · rfl
      · have h2 := keyEq_trans k cat c e2 (keyEq_symm c cat h)
        rw [e1] at h2
        exact Bool.noConfusion h2
      · have h2 := keyEq_trans k c cat e1 h
        rw [e2] at h2
        exact Bool.noConfusion h2
      · rfl
    simp [lookupKey, hkk, ih]

theorem lookupKey_setKeyP (d : List (Py × Nat)) (key cat : Py) (v : Nat) :
    lookupKey (setKeyP d key v) cat
      = if Py.keyEq key cat then some v else lookupKey d cat := by
  induction d with
  | nil => simp [setKeyP, lookupKey]
  | cons kv rest ih =>
    obtain ⟨k, w⟩ := kv
    cases e0 : Py.keyEq k key with
    | true =>
      cases ec : Py.keyEq key cat with
      | true =>
        have hkc : Py.keyEq k cat = true := keyEq_trans k key cat e0 ec
        simp [setKeyP, lookupKey, e0, ec, hkc]
      | false =>
        have hkc : Py.keyEq k cat = false := by
          cases hx : Py.keyEq k cat with
          | false => rfl
          | true =>
            have h2 := keyEq_trans key k cat (keyEq_symm k key e0) hx
            rw [ec] at h2
            exact Bool.noConfusion h2
        simp [setKeyP, lookupKey, e0, ec, hkc]
    | false =>
      cases ec : Py.keyEq k cat with
      | true =>
        have hkc : Py.keyEq key cat = false := by
          cases hx : Py.keyEq key cat with
          | false => rfl
          | true =>
            have h2 := keyEq_trans k cat key ec (keyEq_symm key cat hx)
            rw [e0] at h2
            exact Bool.noConfusion h2
        simp [setKeyP, lookupKey, e0, ec, hkc]
      | false =>
        simp [setKeyP, lookupKey, e0, ec, ih]

theorem wellKeyed_shape (r : Py) (h : wellKeyed r = true) :
    ∃ c, categoryOfRec r = some c ∧ c.isHashable = true := by
  unfold wellKeyed at h
  rcases e : categoryOfRec r with _ | c
  · rw [e] at h
    exact Bool.noConfusion h
  · rw [e] at h
    exact ⟨c, rfl, h⟩

theorem subscript_category (r : Py) (c : Py) (hc : categoryOfRec r = some c) :
    r.subscript "category" = .ok c := by
  cases r with
  | dict kvs =>
    have hc' : pylookup kvs "category" = some c := hc
    simp [Py.subscript, hc']
  | none => exact Option.noConfusion hc
  | bool b => exact Option.noConfusion hc
  | int n => exact Option.noConfusion hc
  | str s => exact Option.noConfusion hc
  | list l => exact Option.noConfusion hc

theorem countInCategory_cons (r : Py) (rest : List Py) (cat c : Py)
    (hc : categoryOfRec r = some c) :
    countInCategory (r :: rest) cat
      = countInCategory rest cat + (if Py.keyEq c cat then 1 else 0) := by
  simp [countInCategory, List.countP_cons, hc]

theorem categoryCountsLoop_wf (rs : List Py) :
    rs.all wellKeyed = true → ∀ counts : List (Py × Nat),
      ∃ counts', categoryCountsLoop counts rs = .ok counts' ∧
        ∀ cat, (lookupKey counts' cat).getD 0
            = (lookupKey counts cat).getD 0 + countInCategory rs cat ∧
          (lookupKey counts' cat).isSome
            = ((lookupKey counts cat).isSome
               || decide (0 < countInCategory rs cat)) := by
  induction rs with
  | nil =>
    intro _ counts
    refine ⟨counts, rfl, fun cat => ?_⟩
    simp [countInCategory]
  | cons r rest ih =>
    intro hk counts
    rw [List.all_cons, Bool.and_eq_true] at hk
    obtain ⟨c, hc, hhash⟩ := wellKeyed_shape r hk.1
    have hsub := subscript_category r c hc
    obtain ⟨counts', hcc, hprop⟩ :=
      ih hk.2 (setKeyP counts c ((lookupKey counts c).getD 0 + 1))
    refine ⟨counts', ?_, fun cat => ?_⟩
    · simp [categoryCountsLoop, hsub, hhash, hcc, Bind.bind, Except.bind]
    · obtain ⟨hval, hsome⟩ := hprop cat
      rw [lookupKey_setKeyP] at hval hsome
      rw [countInCategory_cons r rest cat c hc]
      have hcg := lookupKey_congr counts c cat
      cases ec : Py.keyEq c cat with
      | true =>
        rw [ec] at hval hsome
        rw [hcg ec] at hval hsome
        simp only [if_true] at hval hsome
        constructor
        · rw [hval]
          simp
          omega
        · rw [hsome]
          simp
      | false =>
        rw [ec] at hval hsome
        simp only [Bool.false_eq_true, if_false] at hval hsome
        constructor
        · rw [hval]
          simp
        · rw [hsome]
          simp

/-- C6: the category-count summary maps each label to exactly the number
of aggregate records whose category field equals that label — a label
with no records is simply absent — and on ten records split 6/4 across
two labels it is exactly CategoryA to 6 and CategoryB to 4. -/
theorem C6_category_counts (rs : List Py) (hk : rs.all wellKeyed = true) :
    (∃ counts, categoryCounts rs = .ok counts ∧
      ∀ cat, lookupKey counts cat
        = if countInCategory rs cat = 0 then Option.none
          else some (countInCategory rs cat)) ∧
    categoryCounts exampleSplitRecords
      = .ok [(.str "CategoryA", 6), (.str "CategoryB", 4)] := by
  constructor
  · obtain ⟨counts', hcc, hprop⟩ := categoryCountsLoop_wf rs hk []
    refine ⟨counts', hcc, fun cat => ?_⟩
    obtain ⟨hval, hsome⟩ := hprop cat
    simp only [lookupKey, Option.getD_none, Option.isSome_none, Nat.zero_add,
      Bool.false_or] at hval hsome
    rcases o : lookupKey counts' cat with _ | m
    · rw [o] at hsome
      simp only [Option.isSome_none] at hsome
      have hz : countInCategory rs cat = 0 := by
        by_contra hnz
        have hd : decide (0 < countInCategory rs cat) = true :=
          decide_eq_true (by omega)
        rw [hd] at hsome
        exact Bool.noConfusion hsome
      rw [if_pos hz]
    · rw [o] at hval hsome
      simp only [Option.getD_some, Option.isSome_some] at hval hsome
      have hpos : 0 < countInCategory rs cat := of_decide_eq_true hsome.symm
      rw [if_neg (by omega), hval]
  · rfl

/-- Witness for C6: the ten-record 6/4 split is well keyed and counted. -/
theorem C6_category_counts_witness :
    exampleSplitRecords.all wellKeyed = true ∧
    ((∃ counts, categoryCounts exampleSplitRecords = .ok counts ∧
      ∀ cat, lookupKey counts cat
        = if countInCategory exampleSplitRecords cat = 0 then Option.none
          else some (countInCategory exampleSplitRecords cat)) ∧
    categoryCounts exampleSplitRecords
      = .ok [(.str "CategoryA", 6), (.str "CategoryB", 4)]) :=
  ⟨by decide, C6_category_counts exampleSplitRecords (by decide)⟩
